import Mathlib

/-!
Verification development for the Cat-Jump platformer (src/CatJump.py).

The Python source is shallowly embedded below.  Pygame `Rect`s store integer
coordinates (float assignments are truncated toward zero), Python floats are
modelled as rationals, and the upgrade dictionary
`{name: remaining_frames}` is modelled as a partial map
`UpgradeKind → Option Int`.  Rendering-only code (sprite image selection,
drawing) carries no game state and is omitted.
-/

namespace CatJump

/-- GameSettings.SCREEN_WIDTH. -/
def SCREEN_WIDTH : Int := 1024

/-- GameSettings.SCREEN_HEIGHT. -/
def SCREEN_HEIGHT : Int := 768

/-- GameSettings.PLAYER_SPEED. -/
def PLAYER_SPEED : Int := 7

/-- GameSettings.GRAVITY (the Python float 0.4). -/
def GRAVITY : ℚ := 2/5

/-- GameSettings.PLAYER_JUMP. -/
def PLAYER_JUMP : ℚ := -19

/-- GameSettings.SCORE_PER_DIFFICULTY. -/
def SCORE_PER_DIFFICULTY : Nat := 500

/-- Truncation toward zero of a rational to an integer: the semantics of
Python `int(...)` on a float and of assigning a float to a pygame `Rect`
coordinate. -/
def truncQ (q : ℚ) : Int := if 0 ≤ q then ⌊q⌋ else ⌈q⌉

/-- A pygame `Rect`: integer position and size. -/
structure Rect where
  x : Int
  y : Int
  w : Int
  h : Int
deriving DecidableEq

/-- Rect.top. -/
def Rect.top (r : Rect) : Int := r.y

/-- Rect.bottom. -/
def Rect.bottom (r : Rect) : Int := r.y + r.h

/-- Rect.left. -/
def Rect.left (r : Rect) : Int := r.x

/-- Rect.right. -/
def Rect.right (r : Rect) : Int := r.x + r.w

/-- pygame `Rect.colliderect` (for positive-size rects): overlap except at
bare shared edges; this is the test `pygame.sprite.spritecollide` uses. -/
def collide (a b : Rect) : Bool :=
  decide (a.x < b.x + b.w) && decide (b.x < a.x + a.w) &&
  decide (a.y < b.y + b.h) && decide (b.y < a.y + a.h)

/-- The five upgrade names of `Orb.UPGRADES` / `GameSettings.UPGRADE_COLORS`. -/
inductive UpgradeKind where
  | jumpBoost
  | speedBoost
  | invincibility
  | gravityReduction
  | shield
deriving DecidableEq

/-- Duration field of `Orb.UPGRADES` for each upgrade name (frames). -/
def UPGRADE_DURATION : UpgradeKind → Int
  | .shield => 0
  | _ => 900

/-- The `Platform` sprite: its collision rect (always 15 pixels tall in the
source: `pygame.Rect(x, y, width, 15)`), the `breakable` and `deadly` flags,
and the deferred-removal flag `will_break`. -/
structure Platform where
  rect : Rect
  breakable : Bool
  deadly : Bool
  will_break : Bool
deriving DecidableEq

/-- Embedding of `Platform.__init__`: collision rect of height 15 at the visual top,
`will_break` initially false. -/
def mkPlatform (x y width : Int) (breakable deadly : Bool) : Platform :=
  { rect := { x := x, y := y, w := width, h := 15 }
    breakable := breakable
    deadly := deadly
    will_break := false }

/-- The `Player` sprite state: rect, velocities (`vel_y` is a Python float,
`vel_x` is always an int in the source), `on_ground`, `fall_time`, the
`active_upgrades` dictionary and the one-shot `shield_active` flag. -/
structure Player where
  rect : Rect
  vel_x : Int
  vel_y : ℚ
  on_ground : Bool
  fall_time : Nat
  active_upgrades : UpgradeKind → Option Int
  shield_active : Bool

/-- Embedding of `Player.handle_input`: reset `vel_x`, then left keys set it to
`-PLAYER_SPEED`, then right keys set it to `PLAYER_SPEED` (the right-key
check runs second and overwrites). -/
def Player.handle_input (p : Player) (leftHeld rightHeld : Bool) : Player :=
  let v : Int := 0
  let v := if leftHeld then -PLAYER_SPEED else v
  let v := if rightHeld then PLAYER_SPEED else v
  { p with vel_x := v }

/-- The timer-decrement block of `Player.update`: every entry of
`active_upgrades` is decremented by 1, and entries that became `≤ 0` are
deleted. -/
def tickUpgrades (au : UpgradeKind → Option Int) : UpgradeKind → Option Int :=
  fun k =>
    match au k with
    | none => none
    | some v => if v - 1 ≤ 0 then none else some (v - 1)

/-- Gravity-modifier block of `Player.update`: Gravity Reduction halves
`gravity_mult`. -/
def Player.effGravityMult (p : Player) (gravity_mult : ℚ) : ℚ :=
  if (p.active_upgrades .gravityReduction).isSome then gravity_mult * (1/2)
  else gravity_mult

/-- Jump-modifier block of `Player.update`: Jump Boost multiplies
`jump_mult` by 1.3. -/
def Player.effJumpMult (p : Player) (jump_mult : ℚ) : ℚ :=
  if (p.active_upgrades .jumpBoost).isSome then jump_mult * (13/10)
  else jump_mult

/-- Speed-modifier block of `Player.update`: with Speed Boost active,
`vel_x` becomes `int(PLAYER_SPEED * 1.5)` in the direction of motion. -/
def Player.effVelX (p : Player) : Int :=
  if (p.active_upgrades .speedBoost).isSome then
    if 0 < p.vel_x then truncQ ((PLAYER_SPEED : ℚ) * (3/2))
    else if p.vel_x < 0 then truncQ (-(PLAYER_SPEED : ℚ) * (3/2))
    else p.vel_x
  else p.vel_x

/-- The integration phase of `Player.update` up to the `self.on_ground =
False` assignment: apply the speed modifier, decrement upgrade timers, add
gravity (with the effective gravity multiplier) to `vel_y`, move the rect by
the velocities (the float `vel_y` addition to `rect.y` truncates toward
zero), and clear `on_ground`. -/
def Player.integrate (p : Player) (gravity_mult : ℚ) : Player :=
  let vx := p.effVelX
  let vy := p.vel_y + GRAVITY * p.effGravityMult gravity_mult
  { p with
    active_upgrades := tickUpgrades p.active_upgrades
    vel_x := vx
    vel_y := vy
    rect := { p.rect with
                x := p.rect.x + vx
                y := truncQ ((p.rect.y : ℚ) + vy) }
    on_ground := false }

/-- Embedding of `Player.jump` composed with the snap `self.rect.bottom =
platform.rect.top` of a successful landing: snap the bottom to the platform
top, set `vel_y = PLAYER_JUMP * jump_mult`, zero `fall_time`, set
`on_ground`. -/
def Player.landOn (p : Player) (pl : Platform) (jump_mult : ℚ) : Player :=
  { p with
    rect := { p.rect with y := pl.rect.top - p.rect.h }
    vel_y := PLAYER_JUMP * jump_mult
    fall_time := 0
    on_ground := true }

/-- A platform qualifies for landing resolution when the rects collide and
the player approaches from above (`self.rect.bottom <=
platform.rect.bottom`). -/
def qualifies (pr : Rect) (pl : Platform) : Bool :=
  collide pr pl.rect && decide (pr.bottom ≤ pl.rect.bottom)

/-- The collision loop of `Player.update` over the platform list: the first
qualifying platform is resolved (deadly with shield: consume the shield and
bounce; deadly with Invincibility: bounce; deadly otherwise: return game
over with nothing further touched; non-deadly: bounce and set `will_break
:= breakable`), and the loop stops there.  Returns
(died, player, platforms). -/
def Player.resolveCollisions (p : Player) (jump_mult : ℚ) :
    List Platform → Bool × Player × List Platform
  | [] => (false, p, [])
  | pl :: rest =>
    if qualifies p.rect pl then
      if pl.deadly then
        if p.shield_active then
          (false, { p.landOn pl jump_mult with shield_active := false },
           pl :: rest)
        else if (p.active_upgrades .invincibility).isSome then
          (false, p.landOn pl jump_mult, pl :: rest)
        else
          (true, p, pl :: rest)
      else
        (false, p.landOn pl jump_mult,
         { pl with will_break := pl.breakable } :: rest)
    else
      let r := p.resolveCollisions jump_mult rest
      (r.1, r.2.1, pl :: r.2.2)

/-- The horizontal clamp of `Player.update`: `rect.left` floored at 0, then
`rect.right` capped at `SCREEN_WIDTH`. -/
def clampX (r : Rect) : Rect :=
  let r := if r.left < 0 then { r with x := 0 } else r
  if SCREEN_WIDTH < r.right then { r with x := SCREEN_WIDTH - r.w } else r

/-- Embedding of `Player.update`: modifiers and timers, integration, the collision loop
(only when `vel_y > 0` after gravity; a deadly death returns immediately,
skipping the clamp, the `fall_time` update and the fall-death checks),
horizontal clamp, `fall_time` increment when airborne, and the two
fall-death conditions.  Returns (died, player, platforms). -/
def Player.update (p : Player) (platforms : List Platform)
    (gravity_mult jump_mult : ℚ) : Bool × Player × List Platform :=
  let jm := p.effJumpMult jump_mult
  let p1 := p.integrate gravity_mult
  let r :=
    if 0 < p1.vel_y then p1.resolveCollisions jm platforms
    else (false, p1, platforms)
  if r.1 then (true, r.2.1, r.2.2)
  else
    let p3 : Player := { r.2.1 with rect := clampX r.2.1.rect }
    let p4 : Player := if p3.on_ground then p3
                       else { p3 with fall_time := p3.fall_time + 1 }
    ((decide (210 < p4.fall_time) || decide (SCREEN_HEIGHT + 200 < p4.rect.top)),
     p4, r.2.2)

/-- Orb collection in `main`: a Shield orb sets `shield_active`; any other
orb overwrites its `active_upgrades` entry with the orb's fixed duration. -/
def collectOrb (p : Player) (u : UpgradeKind) : Player :=
  if u = .shield then { p with shield_active := true }
  else { p with
           active_upgrades :=
             fun k => if k = u then some (UPGRADE_DURATION u)
                      else p.active_upgrades k }

/-- Embedding of `get_difficulty_modifiers(score)`: level is `score // 500`;
gravity multiplier `1 + 0.05·level`, jump multiplier
`max 0.85 (1 − 0.02·level)`, gap multiplier `1 + 0.03·level`. -/
def get_difficulty_modifiers (score : Nat) : ℚ × ℚ × ℚ × Nat :=
  let difficulty_level := score / SCORE_PER_DIFFICULTY
  (1 + (difficulty_level : ℚ) * (5/100),
   max (85/100) (1 - (difficulty_level : ℚ) * (2/100)),
   1 + (difficulty_level : ℚ) * (3/100),
   difficulty_level)

/-! ### Helper lemmas about the collision loop and the clamp -/

theorem clampX_y (r : Rect) : (clampX r).y = r.y := by
  unfold clampX
  by_cases h1 : r.left < 0 <;> simp only [h1, if_true, if_false, ite_true, ite_false] <;>
    split <;> rfl

theorem clampX_h (r : Rect) : (clampX r).h = r.h := by
  unfold clampX
  by_cases h1 : r.left < 0 <;> simp only [h1, if_true, if_false, ite_true, ite_false] <;>
    split <;> rfl

/-- Scanning a prefix of non-qualifying platforms leaves them untouched and
hands the rest of the list to the loop. -/
theorem resolveCollisions_skip (p : Player) (jm : ℚ) (pre rest : List Platform)
    (hpre : ∀ q ∈ pre, qualifies p.rect q = false) :
    p.resolveCollisions jm (pre ++ rest)
      = ((p.resolveCollisions jm rest).1,
         (p.resolveCollisions jm rest).2.1,
         pre ++ (p.resolveCollisions jm rest).2.2) := by
  induction pre with
  | nil => simp
  | cons a as ih =>
      have ha : qualifies p.rect a = false := hpre a (List.mem_cons_self a as)
      have has : ∀ q ∈ as, qualifies p.rect q = false :=
        fun q hq => hpre q (List.mem_cons_of_mem a hq)
      simp [Player.resolveCollisions, ha, ih has]

/-- A qualifying deadly platform at the head, with no shield and no
Invincibility, is an immediate game over: nothing is touched. -/
theorem resolveCollisions_deadly_head (p : Player) (jm : ℚ) (pl : Platform)
    (rest : List Platform)
    (hq : qualifies p.rect pl = true) (hdead : pl.deadly = true)
    (hshield : p.shield_active = false)
    (hinv : p.active_upgrades UpgradeKind.invincibility = none) :
    p.resolveCollisions jm (pl :: rest) = (true, p, pl :: rest) := by
  simp [Player.resolveCollisions, hq, hdead, hshield, hinv]

/-- A qualifying deadly platform at the head with the shield active:
consume the shield and bounce as on a Normal platform. -/
theorem resolveCollisions_deadly_shield_head (p : Player) (jm : ℚ)
    (pl : Platform) (rest : List Platform)
    (hq : qualifies p.rect pl = true) (hdead : pl.deadly = true)
    (hshield : p.shield_active = true) :
    p.resolveCollisions jm (pl :: rest)
      = (false, { p.landOn pl jm with shield_active := false }, pl :: rest) := by
  simp [Player.resolveCollisions, hq, hdead, hshield]

/-- A qualifying deadly platform at the head with Invincibility (and no
shield): bounce as on a Normal platform with nothing consumed. -/
theorem resolveCollisions_deadly_invincible_head (p : Player) (jm : ℚ)
    (pl : Platform) (rest : List Platform)
    (hq : qualifies p.rect pl = true) (hdead : pl.deadly = true)
    (hshield : p.shield_active = false)
    (hinv : (p.active_upgrades UpgradeKind.invincibility).isSome = true) :
    p.resolveCollisions jm (pl :: rest)
      = (false, p.landOn pl jm, pl :: rest) := by
  simp [Player.resolveCollisions, hq, hdead, hshield, hinv]

/-- When the collision loop reports a death, `Player.update` returns
immediately with the loop's output. -/
theorem update_of_resolve_died (p : Player) (platforms : List Platform)
    (gm jm : ℚ)
    (hdesc : 0 < (p.integrate gm).vel_y)
    (hres : (p.integrate gm).resolveCollisions (p.effJumpMult jm) platforms
            = (true, p.integrate gm, platforms)) :
    p.update platforms gm jm = (true, p.integrate gm, platforms) := by
  simp [Player.update, hdesc, hres]

/-- When the collision loop lands the player (`on_ground` set), the rest of
the tick clamps the rect and checks the two fall-death conditions. -/
theorem update_of_resolve_landed (p : Player) (platforms platforms2 : List Platform)
    (gm jm : ℚ) (p2 : Player)
    (hdesc : 0 < (p.integrate gm).vel_y)
    (hres : (p.integrate gm).resolveCollisions (p.effJumpMult jm) platforms
            = (false, p2, platforms2))
    (hg : p2.on_ground = true) :
    p.update platforms gm jm
      = ((decide (210 < p2.fall_time)
            || decide (SCREEN_HEIGHT + 200 < p2.rect.y) : Bool),
         { p2 with rect := clampX p2.rect }, platforms2) := by
  simp [Player.update, hdesc, hres, hg, Rect.top, clampX_y]

/-! ### Concrete fixtures used by witness theorems -/

/-- An empty upgrade dictionary. -/
def noUpgrades : UpgradeKind → Option Int := fun _ => none

/-- A concrete falling player above the witness platform. -/
def wP : Player :=
  { rect := { x := 0, y := 0, w := 90, h := 90 }
    vel_x := 0
    vel_y := 1
    on_ground := false
    fall_time := 0
    active_upgrades := noUpgrades
    shield_active := false }

/-- A concrete deadly platform right under `wP`. -/
def wDeadly : Platform := mkPlatform 0 80 220 false true

/-! ### Claims -/

/-- Claim C1: a descending landing (post-gravity `vel_y > 0`) on a Deadly
platform with the shield off and Invincibility not active (the collision
branch reads the already-decremented upgrade dictionary) returns
`died = true` immediately: the returned player is exactly the
integration-phase state (no snap, no jump impulse, `on_ground` stays the
false the tick set, no horizontal clamp, no `fall_time` update), the
platform list is returned unchanged (no `will_break`), and platforms after
the deadly one are never evaluated (the died flag and player state do not
depend on the tail). -/
theorem C1_deadly_landing_unprotected_dies_frozen
    (p : Player) (pre post post' : List Platform) (pl : Platform) (gm jm : ℚ)
    (hdesc : 0 < (p.integrate gm).vel_y)
    (hpre : ∀ q ∈ pre, qualifies (p.integrate gm).rect q = false)
    (hq : qualifies (p.integrate gm).rect pl = true)
    (hdead : pl.deadly = true)
    (hshield : p.shield_active = false)
    (hinv : tickUpgrades p.active_upgrades UpgradeKind.invincibility = none) :
    p.update (pre ++ pl :: post) gm jm = (true, p.integrate gm, pre ++ pl :: post)
    ∧ (p.update (pre ++ pl :: post) gm jm).1
        = (p.update (pre ++ pl :: post') gm jm).1
    ∧ (p.update (pre ++ pl :: post) gm jm).2.1
        = (p.update (pre ++ pl :: post') gm jm).2.1 := by
  have hshield1 : (p.integrate gm).shield_active = false := hshield
  have hinv1 : (p.integrate gm).active_upgrades UpgradeKind.invincibility = none := hinv
  have key : ∀ post₀ : List Platform,
      p.update (pre ++ pl :: post₀) gm jm
        = (true, p.integrate gm, pre ++ pl :: post₀) := by
    intro post₀
    apply update_of_resolve_died p _ gm jm hdesc
    rw [resolveCollisions_skip _ _ _ _ hpre,
        resolveCollisions_deadly_head _ _ _ _ hq hdead hshield1 hinv1]
  refine ⟨key post, ?_, ?_⟩ <;> rw [key post, key post']

/-- Claim C1 witness: a concrete unprotected player falling onto a concrete
deadly platform dies with state frozen at the integration phase. -/
theorem C1_witness :
    wP.update [wDeadly] 1 1 = (true, wP.integrate 1, [wDeadly]) :=
  (C1_deadly_landing_unprotected_dies_frozen wP [] [] [] wDeadly 1 1
    (by norm_num [Player.integrate, Player.effGravityMult, Player.effVelX,
          wP, noUpgrades, GRAVITY, tickUpgrades])
    (by intro q hq; cases hq)
    (by norm_num [Player.integrate, Player.effGravityMult, Player.effVelX,
          wP, noUpgrades, GRAVITY, tickUpgrades, qualifies, collide, wDeadly,
          mkPlatform, Rect.bottom, truncQ])
    rfl rfl rfl).1

/-- Claim C3: when the post-gravity vertical velocity is not positive, the
collision loop is skipped entirely: for every platform list the update
returns the integrated player (clamped horizontally, `fall_time`
incremented, `on_ground` false, `vel_y` untouched by any jump impulse) and
the platform list unchanged, and the died flag depends only on the two
fall-death conditions — no landing and no deadly death can occur. -/
theorem C3_no_resolution_when_not_descending
    (p : Player) (platforms : List Platform) (gm jm : ℚ)
    (hasc : (p.integrate gm).vel_y ≤ 0) :
    p.update platforms gm jm
      = ((decide (210 < p.fall_time + 1)
            || decide (SCREEN_HEIGHT + 200 < (p.integrate gm).rect.y) : Bool),
         { p.integrate gm with
             rect := clampX (p.integrate gm).rect,
             fall_time := p.fall_time + 1 },
         platforms)
    ∧ (p.update platforms gm jm).2.1.on_ground = false
    ∧ (p.update platforms gm jm).2.1.vel_y = (p.integrate gm).vel_y := by
  have hnd : ¬ 0 < (p.integrate gm).vel_y := not_lt.mpr hasc
  have hg : (p.integrate gm).on_ground = false := rfl
  have hf : (p.integrate gm).fall_time = p.fall_time := rfl
  have key : p.update platforms gm jm
      = ((decide (210 < p.fall_time + 1)
            || decide (SCREEN_HEIGHT + 200 < (p.integrate gm).rect.y) : Bool),
         { p.integrate gm with
             rect := clampX (p.integrate gm).rect,
             fall_time := p.fall_time + 1 },
         platforms) := by
    simp [Player.update, hnd, hg, hf, Rect.top, clampX_y]
  exact ⟨key, by rw [key]; try rfl, by rw [key]; try rfl⟩


/-- Claim C3 witness: a concrete ascending player overlapping a deadly
platform passes through it: nothing is resolved and the platform list is
returned unchanged. -/
theorem C3_witness :
    ({ wP with vel_y := -5 } : Player).update [wDeadly] 1 1
      = (false,
         { ({ wP with vel_y := -5 } : Player).integrate 1 with
             rect := clampX (({ wP with vel_y := -5 } : Player).integrate 1).rect,
             fall_time := wP.fall_time + 1 },
         [wDeadly]) := by
  have h := (C3_no_resolution_when_not_descending
    ({ wP with vel_y := -5 } : Player) [wDeadly] 1 1
    (by norm_num [Player.integrate, Player.effGravityMult, Player.effVelX,
          wP, noUpgrades, GRAVITY, tickUpgrades])).1
  rw [h]
  norm_num [wP, Player.integrate, Player.effGravityMult, Player.effVelX,
    noUpgrades, GRAVITY, tickUpgrades, SCREEN_HEIGHT, truncQ, Int.ceil_neg]

/-- Claim C2: a descending landing on a Deadly platform with the shield on
consumes the shield (true→false, checked before Invincibility, so this
holds even when Invincibility is also active) and otherwise produces
exactly a Normal-landing outcome: bottom snapped to the platform top, jump
impulse `vel_y = PLAYER_JUMP * jump_mult` (effective multiplier),
`fall_time` reset to 0, `on_ground` set, platform list untouched; with the
shield off and Invincibility active the same Normal-landing outcome occurs
with nothing consumed. -/
theorem C2_deadly_landing_shield_or_invincible
    (p : Player) (pre post : List Platform) (pl : Platform) (gm jm : ℚ)
    (hdesc : 0 < (p.integrate gm).vel_y)
    (hpre : ∀ q ∈ pre, qualifies (p.integrate gm).rect q = false)
    (hq : qualifies (p.integrate gm).rect pl = true)
    (hdead : pl.deadly = true) :
    (p.shield_active = true →
       p.update (pre ++ pl :: post) gm jm
         = ((decide (SCREEN_HEIGHT + 200 < pl.rect.top - p.rect.h) : Bool),
            { p.integrate gm with
                rect := clampX { (p.integrate gm).rect with
                                   y := pl.rect.top - p.rect.h },
                vel_y := PLAYER_JUMP * p.effJumpMult jm,
                fall_time := 0,
                on_ground := true,
                shield_active := false },
            pre ++ pl :: post))
    ∧ (p.shield_active = false →
       (tickUpgrades p.active_upgrades UpgradeKind.invincibility).isSome = true →
       p.update (pre ++ pl :: post) gm jm
         = ((decide (SCREEN_HEIGHT + 200 < pl.rect.top - p.rect.h) : Bool),
            { p.integrate gm with
                rect := clampX { (p.integrate gm).rect with
                                   y := pl.rect.top - p.rect.h },
                vel_y := PLAYER_JUMP * p.effJumpMult jm,
                fall_time := 0,
                on_ground := true },
            pre ++ pl :: post))
    ∧ (clampX { (p.integrate gm).rect with
                  y := pl.rect.top - p.rect.h }).bottom = pl.rect.top := by
  refine ⟨?_, ?_, ?_⟩
  · intro hshield
    have hs1 : (p.integrate gm).shield_active = true := hshield
    have hres : (p.integrate gm).resolveCollisions (p.effJumpMult jm)
        (pre ++ pl :: post)
        = (false,
           { (p.integrate gm).landOn pl (p.effJumpMult jm) with
               shield_active := false },
           pre ++ pl :: post) := by
      rw [resolveCollisions_skip _ _ _ _ hpre,
          resolveCollisions_deadly_shield_head _ _ _ _ hq hdead hs1]
    have hupd := update_of_resolve_landed p _ _ gm jm _ hdesc hres rfl
    rw [hupd]; rfl
  · intro hshield hinv
    have hs1 : (p.integrate gm).shield_active = false := hshield
    have hi1 : ((p.integrate gm).active_upgrades
        UpgradeKind.invincibility).isSome = true := hinv
    have hres : (p.integrate gm).resolveCollisions (p.effJumpMult jm)
        (pre ++ pl :: post)
        = (false, (p.integrate gm).landOn pl (p.effJumpMult jm),
           pre ++ pl :: post) := by
      rw [resolveCollisions_skip _ _ _ _ hpre,
          resolveCollisions_deadly_invincible_head _ _ _ _ hq hdead hs1 hi1]
    have hupd := update_of_resolve_landed p _ _ gm jm _ hdesc hres rfl
    rw [hupd]; rfl
  · have hh : (p.integrate gm).rect.h = p.rect.h := rfl
    simp [Rect.bottom, clampX_y, clampX_h, hh]

/-- Claim C2 witness: a concrete shielded player landing on a concrete
deadly platform survives with the shield consumed, bounced off the
platform top. -/
theorem C2_witness :
    (({ wP with shield_active := true } : Player).update [wDeadly] 1 1).2.1.shield_active
        = false
    ∧ (({ wP with shield_active := true } : Player).update [wDeadly] 1 1).2.1.on_ground
        = true
    ∧ (({ wP with shield_active := true } : Player).update [wDeadly] 1 1).2.1.vel_y
        = PLAYER_JUMP * 1 := by
  have h := (C2_deadly_landing_shield_or_invincible
    ({ wP with shield_active := true } : Player) [] [] wDeadly 1 1
    (by norm_num [Player.integrate, Player.effGravityMult, Player.effVelX,
          wP, noUpgrades, GRAVITY, tickUpgrades])
    (by intro q hq; cases hq)
    (by norm_num [Player.integrate, Player.effGravityMult, Player.effVelX,
          wP, noUpgrades, GRAVITY, tickUpgrades, qualifies, collide, wDeadly,
          mkPlatform, Rect.bottom, truncQ])
    rfl).1 rfl
  simp only [List.nil_append] at h
  rw [h]
  refine ⟨rfl, rfl, rfl⟩

/-- The collision loop never changes the player's horizontal velocity. -/
theorem resolveCollisions_vel_x (p : Player) (jm : ℚ)
    (platforms : List Platform) :
    (p.resolveCollisions jm platforms).2.1.vel_x = p.vel_x := by
  induction platforms with
  | nil => rfl
  | cons pl rest ih =>
      unfold Player.resolveCollisions
      split
      · split
        · split
          · rfl
          · split
            · rfl
            · rfl
        · rfl
      · simpa using ih

/-- The horizontal velocity returned by `Player.update` is exactly the
speed-modifier output `Player.effVelX`: nothing later in the tick touches
`vel_x`. -/
theorem update_vel_x (p : Player) (platforms : List Platform) (gm jm : ℚ) :
    (p.update platforms gm jm).2.1.vel_x = p.effVelX := by
  have hint : (p.integrate gm).vel_x = p.effVelX := rfl
  have hres : ((p.integrate gm).resolveCollisions (p.effJumpMult jm)
      platforms).2.1.vel_x = p.effVelX := by
    rw [resolveCollisions_vel_x]; exact hint
  unfold Player.update
  by_cases hv : 0 < (p.integrate gm).vel_y <;> simp only [hv, if_true, if_false,
    ite_true, ite_false]
  · split
    · exact hres
    · split <;> simpa using hres
  · split
    · exact hint
    · split <;> simpa using hint

/-- Claim C10: `handle_input` with both directional keys held sets
`vel_x = +PLAYER_SPEED` (the right-key check runs second and overwrites the
left-key assignment — in fact the right key wins whatever the left key
does), and with neither key held `vel_x = 0`. -/
theorem C10_right_key_wins (p : Player) :
    (p.handle_input true true).vel_x = PLAYER_SPEED
    ∧ (∀ leftHeld : Bool, (p.handle_input leftHeld true).vel_x = PLAYER_SPEED)
    ∧ (p.handle_input false false).vel_x = 0
    ∧ PLAYER_SPEED = 7 := by
  refine ⟨rfl, ?_, rfl, rfl⟩
  intro leftHeld; cases leftHeld <;> rfl

/-- Claim C5 counterexample: with Speed Boost active (picked up via
`collectOrb`) and the right key held, the horizontal velocity after the
update is 10, not `PLAYER_SPEED * 1.5 = 10.5` as the claim states: the
source truncates with `int(...)`. -/
theorem C5_counterexample :
    ((((collectOrb wP .speedBoost).handle_input false true).update
        [] 1 1).2.1.vel_x : ℚ) = 10
    ∧ ¬ ((((collectOrb wP .speedBoost).handle_input false true).update
        [] 1 1).2.1.vel_x : ℚ) = (PLAYER_SPEED : ℚ) * (3/2) := by
  have h := update_vel_x ((collectOrb wP .speedBoost).handle_input false true)
    [] 1 1
  have h2 : ((collectOrb wP .speedBoost).handle_input false true).effVelX
      = 10 := by
    have hsb : (((collectOrb wP .speedBoost).handle_input false
        true).active_upgrades UpgradeKind.speedBoost).isSome = true := rfl
    have hvx : ((collectOrb wP .speedBoost).handle_input false true).vel_x
        = 7 := rfl
    simp only [Player.effVelX, hsb, if_true, hvx]
    norm_num [truncQ, PLAYER_SPEED]
  rw [h, h2]
  norm_num [PLAYER_SPEED]

/-- Claim C5 as amended: with Speed Boost active, the horizontal velocity
coming out of the update is `int(PLAYER_SPEED * 1.5)` — that is 10, not
10.5, Python `int()` truncating — signed by the raw input direction, and 0
when no directional key is held. -/
theorem C5_amended_speed_boost_truncated
    (p : Player) (platforms : List Platform) (gm jm : ℚ)
    (leftHeld rightHeld : Bool)
    (hsb : (p.active_upgrades UpgradeKind.speedBoost).isSome = true) :
    (rightHeld = true →
      ((p.handle_input leftHeld rightHeld).update platforms gm jm).2.1.vel_x
        = truncQ ((PLAYER_SPEED : ℚ) * (3/2)))
    ∧ (rightHeld = false → leftHeld = true →
      ((p.handle_input leftHeld rightHeld).update platforms gm jm).2.1.vel_x
        = truncQ (-(PLAYER_SPEED : ℚ) * (3/2)))
    ∧ (rightHeld = false → leftHeld = false →
      ((p.handle_input leftHeld rightHeld).update platforms gm jm).2.1.vel_x
        = 0)
    ∧ truncQ ((PLAYER_SPEED : ℚ) * (3/2)) = 10
    ∧ truncQ (-(PLAYER_SPEED : ℚ) * (3/2)) = -10 := by
  have h := update_vel_x (p.handle_input leftHeld rightHeld) platforms gm jm
  have hau : (p.handle_input leftHeld rightHeld).active_upgrades
      = p.active_upgrades := rfl
  refine ⟨?_, ?_, ?_, ?_, ?_⟩
  · rintro rfl
    rw [h]
    simp [Player.effVelX, Player.handle_input, hau, hsb, PLAYER_SPEED]
  · rintro rfl rfl
    rw [h]
    simp [Player.effVelX, Player.handle_input, hau, hsb, PLAYER_SPEED]
  · rintro rfl rfl
    rw [h]
    simp [Player.effVelX, Player.handle_input, hau, hsb, PLAYER_SPEED]
  · norm_num [truncQ, PLAYER_SPEED]
  · norm_num [truncQ, PLAYER_SPEED, Int.ceil_neg]

/-- Claim C5 (amended) witness: the concrete boosted player moving right
ends the update with horizontal velocity 10. -/
theorem C5_witness :
    (((collectOrb wP .speedBoost).handle_input false true).update
        [] 1 1).2.1.vel_x = 10 := by
  have h := C5_amended_speed_boost_truncated (collectOrb wP .speedBoost)
    [] 1 1 false true rfl
  rw [h.1 rfl, h.2.2.2.1]

/-- Claim C6: each tick decrements every upgrade-timer entry by exactly 1;
an entry survives (with value one less) exactly when the decremented value
is still positive, is removed exactly when it reaches 0, absent entries
stay absent, every surviving entry is strictly positive (no upgrade is ever
active with a zero or negative duration), and re-collecting an orb of an
already-active kind overwrites the entry with the fixed full duration 900
(refresh, not additive), leaving other entries untouched. -/
theorem C6_upgrade_timer_semantics :
    (∀ (au : UpgradeKind → Option Int) (k : UpgradeKind) (v : Int),
      au k = some v → 1 < v → tickUpgrades au k = some (v - 1))
    ∧ (∀ (au : UpgradeKind → Option Int) (k : UpgradeKind) (v : Int),
      au k = some v → v ≤ 1 → tickUpgrades au k = none)
    ∧ (∀ (au : UpgradeKind → Option Int) (k : UpgradeKind) (v : Int),
      tickUpgrades au k = some v → 0 < v)
    ∧ (∀ (au : UpgradeKind → Option Int) (k : UpgradeKind),
      au k = none → tickUpgrades au k = none)
    ∧ (∀ (p : Player) (u : UpgradeKind), u ≠ .shield →
      (collectOrb p u).active_upgrades u = some (UPGRADE_DURATION u)
      ∧ UPGRADE_DURATION u = 900)
    ∧ (∀ (p : Player) (u k : UpgradeKind), u ≠ .shield → k ≠ u →
      (collectOrb p u).active_upgrades k = p.active_upgrades k) := by
  refine ⟨?_, ?_, ?_, ?_, ?_, ?_⟩
  · intro au k v hk hv
    simp [tickUpgrades, hk]
    omega
  · intro au k v hk hv
    simp [tickUpgrades, hk]
    omega
  · intro au k v hk
    unfold tickUpgrades at hk
    rcases h : au k with _ | w <;> rw [h] at hk
    · cases hk
    · by_cases hw : w - 1 ≤ 0 <;> simp [hw] at hk
      omega
  · intro au k hk
    simp [tickUpgrades, hk]
  · intro p u hu
    constructor
    · simp [collectOrb, hu]
    · cases u <;> simp_all [UPGRADE_DURATION]
  · intro p u k hu hk
    simp [collectOrb, hu, hk]

/-- Claim C6 witness: a just-collected Jump Boost entry at 900 ticks down
to 899, and re-collecting a Speed Boost orb resets its entry to 900. -/
theorem C6_witness :
    tickUpgrades (fun k => if k = UpgradeKind.jumpBoost then some 900 else none)
        UpgradeKind.jumpBoost = some 899
    ∧ (collectOrb { wP with active_upgrades :=
          fun k => if k = UpgradeKind.speedBoost then some 17 else none }
        .speedBoost).active_upgrades UpgradeKind.speedBoost = some 900 := by
  refine ⟨?_, ?_⟩
  · have h := C6_upgrade_timer_semantics.1
      (fun k => if k = UpgradeKind.jumpBoost then some 900 else none)
      UpgradeKind.jumpBoost 900 rfl (by norm_num)
    simpa using h
  · have h := (C6_upgrade_timer_semantics.2.2.2.2.1
      ({ wP with active_upgrades :=
          fun k => if k = UpgradeKind.speedBoost then some 17 else none })
      .speedBoost (by simp))
    rw [h.1, h.2]

/-- Claim C8: the difficulty scaler satisfies
`scale 0 = (1, 1, 1, 0)`, `scale 500 = (1.05, 0.98, 1.03, 1)`, and the jump
multiplier never drops below 0.85 for any score. -/
theorem C8_difficulty_scaler :
    get_difficulty_modifiers 0 = (1, 1, 1, 0)
    ∧ get_difficulty_modifiers 500 = (105/100, 98/100, 103/100, 1)
    ∧ ∀ score : Nat, 85/100 ≤ (get_difficulty_modifiers score).2.1 := by
  refine ⟨?_, ?_, ?_⟩
  · norm_num [get_difficulty_modifiers, SCORE_PER_DIFFICULTY]
  · norm_num [get_difficulty_modifiers, SCORE_PER_DIFFICULTY]
  · intro score
    simp only [get_difficulty_modifiers]
    exact le_max_left _ _

/-! ### Procedural generator: random platform flags and horizontal placement -/

/-- The per-platform random rolls of the initial seeding loop in `main`:
`is_breakable = random.random() < 0.3`, `is_deadly = False`.  The uniform
draw is passed explicitly.  Returns (is_breakable, is_deadly). -/
def initial_platform_flags (r_break : ℚ) : Bool × Bool :=
  (decide (r_break < 3/10), false)

/-- The per-platform random rolls of the dynamic five-platform batch in
`main`: `is_breakable = random.random() < 0.3` and, from an independent
draw, `is_deadly = current_difficulty >= 3 and random.random() < 0.08`.
Returns (is_breakable, is_deadly). -/
def batch_platform_flags (current_difficulty : Nat) (r_break r_deadly : ℚ) :
    Bool × Bool :=
  (decide (r_break < 3/10),
   decide (3 ≤ current_difficulty) && decide (r_deadly < 8/100))

/-- Constant `min_horizontal_gap` in `main`. -/
def min_horizontal_gap : Int := 200

/-- The rejection-sampling loop shared by the seeding loop and the dynamic
batch: draw proposals (`random.randint`) until one is at least
`min_horizontal_gap` away from `last_x`; `none` models a proposal stream
exhausted before any draw is accepted. -/
def pick_x (last_x : Int) : List Int → Option Int
  | [] => none
  | p :: ps =>
      if |p - last_x| < min_horizontal_gap then pick_x last_x ps else some p

/-- The succession of accepted horizontal positions: both generation sites
thread `last_x` through the same rejection loop (the dynamic batches
continue from the seeding loop's final `last_x`), so one chain over the
concatenated proposal streams covers the seeding, every batch, and the
boundaries between them. -/
def gen_xs (last_x : Int) : List (List Int) → Option (List Int)
  | [] => some []
  | ps :: rest =>
      match pick_x last_x ps with
      | none => none
      | some x =>
          match gen_xs x rest with
          | none => none
          | some xs => some (x :: xs)

/-- Every accepted proposal is at least `min_horizontal_gap` from the
previous platform's position. -/
theorem pick_x_spec (last_x : Int) (ps : List Int) (x : Int)
    (h : pick_x last_x ps = some x) :
    min_horizontal_gap ≤ |x - last_x| := by
  induction ps with
  | nil => cases h
  | cons p ps ih =>
      unfold pick_x at h
      by_cases hc : |p - last_x| < min_horizontal_gap
      · rw [if_pos hc] at h
        exact ih h
      · rw [if_neg hc] at h
        injection h with h
        subst h
        exact not_lt.mp hc

/-- Claim C4 counterexample: a dynamic-batch platform generated at
difficulty level 3 with both rolls landing at 0 is breakable AND deadly —
the two flags are rolled independently, so they are not mutually exclusive
as the claim states. -/
theorem C4_counterexample :
    (mkPlatform 100 200 220 (batch_platform_flags 3 0 0).1
        (batch_platform_flags 3 0 0).2).breakable = true
    ∧ (mkPlatform 100 200 220 (batch_platform_flags 3 0 0).1
        (batch_platform_flags 3 0 0).2).deadly = true := by
  constructor <;> norm_num [mkPlatform, batch_platform_flags]

/-- Claim C4 as amended: initial-seeding platforms are never deadly (so
never both breakable and deadly), and dynamic-batch platforms below
difficulty level 3 are never deadly; but at difficulty level ≥ 3 the
breakable and deadly rolls are independent, and a batch platform can carry
both flags at once. -/
theorem C4_amended_flag_exclusivity :
    (∀ r : ℚ, (initial_platform_flags r).2 = false)
    ∧ (∀ (lvl : Nat) (r1 r2 : ℚ), lvl < 3 →
        (batch_platform_flags lvl r1 r2).2 = false)
    ∧ (batch_platform_flags 3 0 0).1 = true
    ∧ (batch_platform_flags 3 0 0).2 = true := by
  refine ⟨fun r => rfl, ?_, ?_, ?_⟩
  · intro lvl r1 r2 hlvl
    have h3 : ¬ 3 ≤ lvl := by omega
    simp [batch_platform_flags, h3]
  · norm_num [batch_platform_flags]
  · norm_num [batch_platform_flags]

/-- Claim C4 (amended) witness: at difficulty level 2, a batch platform is
never deadly even with both rolls at 0. -/
theorem C4_witness : (batch_platform_flags 2 0 0).2 = false :=
  C4_amended_flag_exclusivity.2.1 2 0 0 (by norm_num)

/-- Claim C7: whenever the generator succeeds in placing a sequence of
platforms, every consecutive pair (starting from the inherited `last_x`,
hence also across the seeding/batch boundary) is at least
`min_horizontal_gap = 200` pixels apart horizontally — the rejection loop
guarantees it. -/
theorem C7_min_horizontal_separation (last_x : Int) (pss : List (List Int))
    (xs : List Int) (h : gen_xs last_x pss = some xs) :
    List.Chain (fun a b => min_horizontal_gap ≤ |b - a|) last_x xs := by
  induction pss generalizing last_x xs with
  | nil =>
      unfold gen_xs at h
      injection h with h
      subst h
      exact List.Chain.nil
  | cons ps rest ih =>
      unfold gen_xs at h
      split at h
      · cases h
      · rename_i x hp
        split at h
        · cases h
        · rename_i ys hg
          injection h with h
          subst h
          exact List.Chain.cons (pick_x_spec _ _ _ hp) (ih _ _ hg)

/-- Claim C7 witness: from the initial `last_x = SCREEN_WIDTH // 2 = 512`,
a concrete run accepting positions 0 then 300 keeps every consecutive pair
at least 200 apart. -/
theorem C7_witness :
    List.Chain (fun a b => min_horizontal_gap ≤ |b - a|) 512
      ((0 : Int) :: [300]) :=
  C7_min_horizontal_separation 512 [[0], [300]] [0, 300] rfl

/-! ### High-score persistence -/

/-- The state of the `high_score.json` collaborator: absent, unreadable or
undecodable (both caught and treated as "no high score"), or a decoded
JSON object — the program itself only ever writes one-key integer
objects. -/
inductive JsonFile where
  | missing
  | corrupt
  | jsonData (kv : List (String × Int))

/-- Embedding of `load_high_score`: 0 when the file does not exist, 0 when reading or
decoding fails (`json.JSONDecodeError`/`IOError` are swallowed), otherwise
`data.get('high_score', 0)`. -/
def load_high_score : JsonFile → Int
  | .missing => 0
  | .corrupt => 0
  | .jsonData kv => (kv.lookup "high_score").getD 0

/-- Embedding of `save_high_score`: a successful write replaces the file with
`{'high_score': score}`; an `IOError` is silently swallowed, leaving the
file as it was. -/
def save_high_score (score : Int) (write_ok : Bool) (f : JsonFile) : JsonFile :=
  if write_ok then .jsonData [("high_score", score)] else f

/-- Claim C9: saving a high score and loading it back returns the same
integer, whatever the file held before; loading with no prior save returns
0; read failures yield 0 and a failed write leaves the store untouched —
persistence failures are swallowed, never fatal. -/
theorem C9_high_score_round_trip :
    (∀ (score : Int) (f : JsonFile),
        load_high_score (save_high_score score true f) = score)
    ∧ load_high_score .missing = 0
    ∧ load_high_score .corrupt = 0
    ∧ (∀ (score : Int) (f : JsonFile), save_high_score score false f = f) := by
  refine ⟨?_, rfl, rfl, ?_⟩
  · intro score f
    simp [load_high_score, save_high_score, List.lookup]
  · intro score f
    simp [save_high_score]

end CatJump
